import Mathlib

/-!
Verification of the blocker-registry engine of `react-action-guard`.

The definitions below are a shallow embedding of
`src/store/uiBlockingStore.actions.ts` together with
`src/store/uiBlockingStore.utils.ts` (scope normalization) and the
constants exported from `src/index.ts`.  JavaScript `Map` objects become
insertion-ordered association lists, `setTimeout` handles become pending
timers held in the registry state, middleware dispatch and timeout
callbacks become entries appended to an observation trace, and
`undefined`-able values become `Option`.
-/

namespace ActionGuard

/-- A scope value as it appears in the source: either a single string or a
list of strings (`string | ReadonlyArray<string>` in TypeScript). -/
inductive Scope where
  | str (s : String)
  | arr (ss : List String)
deriving DecidableEq, Repr

/-- Embeds `normalizeScopeToArray` from `uiBlockingStore.utils.ts`: a single
string becomes a one-element list, an array is taken as is. -/
def normalizeScopeToArray : Scope → List String
  | .str s => [s]
  | .arr ss => ss

/-- Constant `DEFAULT_SCOPE` from `src/index.ts`. -/
def DEFAULT_SCOPE : String := "global"

/-- Constant `DEFAULT_REASON` from `src/index.ts`. -/
def DEFAULT_REASON : String := "Unknown"

/-- Constant `DEFAULT_PRIORITY` from `src/index.ts`. -/
def DEFAULT_PRIORITY : Int := 0

/-- Embeds `normalizePriority`: a supplied priority is clamped with
`Math.max(0, priority)`, an omitted one falls back (to `DEFAULT_PRIORITY`
on add, to the previously stored value on update). -/
def normalizePriority (priority : Option Int) (fallback : Int) : Int :=
  match priority with
  | some p => max 0 p
  | none => fallback

/-- The `BlockerConfig` argument of `addBlocker` / `updateBlocker`; every
field is optional.  `onTimeout` callbacks are modelled as opaque numeric
identifiers. -/
structure BlockerConfig where
  scope : Option Scope
  reason : Option String
  priority : Option Int
  timestamp : Option Int
  timeout : Option Int
  onTimeout : Option Nat
deriving DecidableEq, Repr

/-- The all-absent configuration (`{}` in TypeScript). -/
def emptyCfg : BlockerConfig :=
  { scope := none, reason := none, priority := none, timestamp := none,
    timeout := none, onTimeout := none }

/-- The `StoredBlocker` record kept in the `activeBlockers` map.
`timeoutId` is the handle of the pending timer, if any. -/
structure StoredBlocker where
  scope : Scope
  reason : String
  priority : Int
  timestamp : Int
  timeout : Option Int
  timeoutId : Option Nat
  onTimeout : Option Nat
deriving DecidableEq, Repr

/-- The `BlockingAction` union for middleware events. -/
inductive BlockingAction where
  | add
  | update
  | remove
  | timeout
  | clear
  | clear_scope
deriving DecidableEq, Repr

/-- A partial blocker snapshot carried inside a middleware event (the
`config` / `prevState` payloads built by the actions). -/
structure EventConfig where
  scope : Option Scope
  reason : Option String
  priority : Option Int
  timestamp : Option Int
  timeout : Option Int
  timeoutId : Option Nat
  onTimeout : Option Nat
deriving DecidableEq, Repr

/-- The `MiddlewareContext` record passed to every middleware. -/
structure MiddlewareContext where
  action : BlockingAction
  blockerId : String
  config : Option EventConfig
  timestamp : Int
  prevState : Option EventConfig
  scope : Option String
  count : Option Nat
deriving DecidableEq, Repr

/-- The data captured by a timeout closure when a timer is scheduled: the
payload of the `timeout` middleware event it will dispatch, and the
callback it will invoke. -/
structure TimerPayload where
  evScope : Option Scope
  evReason : Option String
  evPriority : Option Int
  evTimeout : Int
  onTimeout : Option Nat
deriving DecidableEq, Repr

/-- A pending `setTimeout` timer: its handle, the blocker it belongs to,
its absolute firing time and the captured closure payload. -/
structure ActiveTimer where
  id : Nat
  blockerId : String
  fireAt : Int
  payload : TimerPayload
deriving DecidableEq, Repr

/-- An externally observable effect: a middleware event being dispatched,
or an `onTimeout` callback being invoked with a blocker id. -/
inductive Obs where
  | event (ctx : MiddlewareContext)
  | timeoutCallback (cb : Nat) (blockerId : String)
deriving DecidableEq, Repr

/-- The state of one registry instance: the `activeBlockers` map (as an
insertion-ordered association list), the pending timers, the trace of
observable effects, the current clock and the next fresh timer handle. -/
structure RegistryState where
  activeBlockers : List (String × StoredBlocker)
  timers : List ActiveTimer
  trace : List Obs
  now : Int
  nextTimerId : Nat
deriving DecidableEq, Repr

/-- The empty registry. -/
def initialState : RegistryState :=
  { activeBlockers := [], timers := [], trace := [], now := 0, nextTimerId := 0 }

/-- JavaScript `Map.get`. -/
def mapGet (m : List (String × StoredBlocker)) (k : String) : Option StoredBlocker :=
  match m with
  | [] => none
  | (k1, v) :: rest => if k1 = k then some v else mapGet rest k

/-- JavaScript `Map.set`: replaces in place when the key is present,
appends otherwise (insertion order is preserved). -/
def mapSet (m : List (String × StoredBlocker)) (k : String) (v : StoredBlocker) :
    List (String × StoredBlocker) :=
  if k ∈ m.map Prod.fst then
    m.map (fun q => if q.1 = k then (k, v) else q)
  else m ++ [(k, v)]

/-- JavaScript `Map.delete`. -/
def mapDelete (m : List (String × StoredBlocker)) (k : String) :
    List (String × StoredBlocker) :=
  m.filter (fun p => p.1 ≠ k)

/-- JavaScript `Map.has`. -/
def mapHas (m : List (String × StoredBlocker)) (k : String) : Bool :=
  (mapGet m k).isSome

/-- The `clearTimeout` primitive: the timer with the given handle is no
longer pending.  Safe on an already-fired or unknown handle. -/
def cancelTimer (ts : List ActiveTimer) (tid : Nat) : List ActiveTimer :=
  ts.filter (fun t => t.id ≠ tid)

/-- Clears a timer when a handle is present (`if (x.timeoutId) clearTimeout(x.timeoutId)`). -/
def cancelTimerOpt (ts : List ActiveTimer) : Option Nat → List ActiveTimer
  | some tid => cancelTimer ts tid
  | none => ts

/-- First-defined choice, the embedding of the `??` operator on two
optional values. -/
def orElseO {α : Type} (a b : Option α) : Option α :=
  match a with
  | some x => some x
  | none => b

/-- The event payload built from a raw config by `addBlocker` (both for the
`add` event and for the `timeout` event of the closure): the four fields
`scope`, `reason`, `priority`, `timeout` taken verbatim from the config. -/
def rawEventConfig (c : BlockerConfig) : EventConfig :=
  { scope := c.scope, reason := c.reason, priority := c.priority,
    timestamp := none, timeout := c.timeout, timeoutId := none, onTimeout := none }

/-- The event payload built by spreading a whole `StoredBlocker`
(`removeBlocker` passes `prevBlocker` itself as config and prevState). -/
def storedEventConfig (b : StoredBlocker) : EventConfig :=
  { scope := some b.scope, reason := some b.reason, priority := some b.priority,
    timestamp := some b.timestamp, timeout := b.timeout, timeoutId := b.timeoutId,
    onTimeout := b.onTimeout }

/-- The six-field snapshot `updateBlocker` puts into its `update` event
(for both the new config and the previous state). -/
def snapshotEventConfig (b : StoredBlocker) : EventConfig :=
  { scope := some b.scope, reason := some b.reason, priority := some b.priority,
    timestamp := some b.timestamp, timeout := b.timeout, timeoutId := none,
    onTimeout := b.onTimeout }

/-- Whether `config.timeout && config.timeout > 0` holds (truthy and
positive), the guard for starting a timer. -/
def wantsTimer (t : Option Int) : Bool :=
  match t with
  | some v => decide (0 < v)
  | none => false

/-- Embeds `addBlocker` (lines 112-169 of `uiBlockingStore.actions.ts`):
clears the replaced blocker's timer, starts a new timer when
`timeout > 0` (capturing the raw config in its closure), stores the
defaulted record, and dispatches an `add` event. -/
def addBlocker (s : RegistryState) (id : String) (config : BlockerConfig) :
    RegistryState :=
  let timers1 :=
    match mapGet s.activeBlockers id with
    | some existing => cancelTimerOpt s.timers existing.timeoutId
    | none => s.timers
  let mk := wantsTimer config.timeout
  let timeoutId : Option Nat := if mk then some s.nextTimerId else none
  let timers2 :=
    if mk then
      timers1 ++ [{ id := s.nextTimerId, blockerId := id,
                    fireAt := s.now + config.timeout.getD 0,
                    payload := { evScope := config.scope, evReason := config.reason,
                                 evPriority := config.priority,
                                 evTimeout := config.timeout.getD 0,
                                 onTimeout := config.onTimeout } }]
    else timers1
  let stored : StoredBlocker :=
    { scope := config.scope.getD (Scope.str DEFAULT_SCOPE),
      reason := config.reason.getD DEFAULT_REASON,
      priority := normalizePriority config.priority DEFAULT_PRIORITY,
      timestamp := config.timestamp.getD s.now,
      timeout := config.timeout,
      timeoutId := timeoutId,
      onTimeout := config.onTimeout }
  let ev : MiddlewareContext :=
    { action := .add, blockerId := id, config := some (rawEventConfig config),
      timestamp := s.now, prevState := none, scope := none, count := none }
  { activeBlockers := mapSet s.activeBlockers id stored,
    timers := timers2,
    trace := s.trace ++ [.event ev],
    now := s.now,
    nextTimerId := if mk then s.nextTimerId + 1 else s.nextTimerId }

/-- The `remove` middleware event: the previous blocker is spread into the
config and also passed as the previous state. -/
def removeEvent (now : Int) (id : String) (prev : StoredBlocker) :
    MiddlewareContext :=
  { action := .remove, blockerId := id, config := some (storedEventConfig prev),
    timestamp := now, prevState := some (storedEventConfig prev),
    scope := none, count := none }

/-- Embeds `removeBlocker` (lines 304-322): clears the blocker's timer,
deletes the record, and dispatches a `remove` event only when the blocker
existed. -/
def removeBlocker (s : RegistryState) (id : String) : RegistryState :=
  match mapGet s.activeBlockers id with
  | none => { s with activeBlockers := mapDelete s.activeBlockers id }
  | some prev =>
    { activeBlockers := mapDelete s.activeBlockers id,
      timers := cancelTimerOpt s.timers prev.timeoutId,
      trace := s.trace ++ [.event (removeEvent s.now id prev)],
      now := s.now,
      nextTimerId := s.nextTimerId }

/-- Embeds `updateBlocker` (lines 198-283): falls back to `addBlocker` for
an absent id; otherwise restarts or cancels the timer only when `timeout`
is supplied and differs from the stored one, merges the config over the
existing record (clamping a supplied priority, keeping the old one when
omitted), and dispatches an `update` event with new and previous
snapshots. -/
def updateBlocker (s : RegistryState) (id : String) (config : BlockerConfig) :
    RegistryState :=
  match mapGet s.activeBlockers id with
  | none => addBlocker s id config
  | some existing =>
    let timeoutChanged : Bool :=
      config.timeout.isSome && decide (config.timeout ≠ existing.timeout)
    let newTimerNeeded : Bool := timeoutChanged && wantsTimer config.timeout
    let timers1 :=
      if timeoutChanged then cancelTimerOpt s.timers existing.timeoutId else s.timers
    let timeoutId : Option Nat :=
      if timeoutChanged then
        (if newTimerNeeded then some s.nextTimerId else none)
      else existing.timeoutId
    let timers2 :=
      if newTimerNeeded then
        timers1 ++ [{ id := s.nextTimerId, blockerId := id,
                      fireAt := s.now + config.timeout.getD 0,
                      payload := { evScope := some (config.scope.getD existing.scope),
                                   evReason := some (config.reason.getD existing.reason),
                                   evPriority := some (config.priority.getD existing.priority),
                                   evTimeout := config.timeout.getD 0,
                                   onTimeout := orElseO config.onTimeout existing.onTimeout } }]
      else timers1
    let updated : StoredBlocker :=
      { scope := config.scope.getD existing.scope,
        reason := config.reason.getD existing.reason,
        priority := normalizePriority config.priority existing.priority,
        timestamp := config.timestamp.getD existing.timestamp,
        timeout := orElseO config.timeout existing.timeout,
        timeoutId := timeoutId,
        onTimeout := orElseO config.onTimeout existing.onTimeout }
    let ev : MiddlewareContext :=
      { action := .update, blockerId := id,
        config := some (snapshotEventConfig updated),
        timestamp := s.now, prevState := some (snapshotEventConfig existing),
        scope := none, count := none }
    { activeBlockers := mapSet s.activeBlockers id updated,
      timers := timers2,
      trace := s.trace ++ [.event ev],
      now := s.now,
      nextTimerId := if newTimerNeeded then s.nextTimerId + 1 else s.nextTimerId }

/-- Embeds `isBlocked` (lines 350-369): normalizes the queried scope
(defaulting to `"global"`), and reports blocked when any stored blocker has
the exact scope string `"global"` or its normalized scope list meets the
queried list. -/
def isBlocked (s : RegistryState) (scope : Option Scope) : Bool :=
  let scopes := normalizeScopeToArray (scope.getD (Scope.str DEFAULT_SCOPE))
  s.activeBlockers.any (fun p =>
    p.2.scope == Scope.str DEFAULT_SCOPE ||
      scopes.any (fun q => (normalizeScopeToArray p.2.scope).contains q))

/-- A blocker annotated with its id, the element type returned by
`getBlockingInfo`. -/
structure BlockerInfo where
  id : String
  scope : Scope
  reason : String
  priority : Int
  timestamp : Int
  timeout : Option Int
  timeoutId : Option Nat
  onTimeout : Option Nat
deriving DecidableEq, Repr

/-- Annotates a stored blocker with its id (`{ id, ...blocker }`). -/
def toInfo (p : String × StoredBlocker) : BlockerInfo :=
  { id := p.1, scope := p.2.scope, reason := p.2.reason, priority := p.2.priority,
    timestamp := p.2.timestamp, timeout := p.2.timeout, timeoutId := p.2.timeoutId,
    onTimeout := p.2.onTimeout }

/-- The inclusion test of `getBlockingInfo`: global scope string, or the
normalized scope list contains the queried scope. -/
def blockerMatches (scope : String) (b : StoredBlocker) : Bool :=
  b.scope == Scope.str DEFAULT_SCOPE || (normalizeScopeToArray b.scope).contains scope

/-- The comparator of `getBlockingInfo`'s final sort
(`(a, b) => b.priority - a.priority`, i.e. descending priority). -/
def priorityDesc (a b : BlockerInfo) : Prop := b.priority ≤ a.priority

instance : DecidableRel priorityDesc := fun a b =>
  inferInstanceAs (Decidable (b.priority ≤ a.priority))

instance : IsTotal BlockerInfo priorityDesc :=
  ⟨fun a b => le_total b.priority a.priority⟩

instance : IsTrans BlockerInfo priorityDesc :=
  ⟨fun _ _ _ hab hbc => le_trans hbc hab⟩

/-- Embeds `getBlockingInfo` (lines 404-417): collects every matching
blocker annotated with its id, then sorts descending by priority. -/
def getBlockingInfo (s : RegistryState) (scope : String) : List BlockerInfo :=
  List.insertionSort priorityDesc
    ((s.activeBlockers.filter (fun p => blockerMatches scope p.2)).map toInfo)

/-- Clears the timers of a list of blockers, as the loops in
`clearAllBlockers` and `clearBlockersForScope` do. -/
def cancelAll (ts : List ActiveTimer) (ps : List (String × StoredBlocker)) :
    List ActiveTimer :=
  ps.foldl (fun acc p => cancelTimerOpt acc p.2.timeoutId) ts

/-- Embeds `clearAllBlockers` (lines 433-455): clears every timer, empties
the map, and dispatches one `clear` event carrying the count when at least
one blocker existed. -/
def clearAllBlockers (s : RegistryState) : RegistryState :=
  let count := s.activeBlockers.length
  let s1 : RegistryState :=
    { activeBlockers := [],
      timers := cancelAll s.timers s.activeBlockers,
      trace := s.trace, now := s.now, nextTimerId := s.nextTimerId }
  if 0 < count then
    { s1 with trace := s1.trace ++ [.event
        { action := .clear, blockerId := "*", config := none, timestamp := s.now,
          prevState := none, scope := none, count := some count }] }
  else s1

/-- Embeds `clearBlockersForScope` (lines 481-520): clears the timers of,
and removes, exactly the blockers whose normalized scope list contains the
given scope; dispatches a `clear_scope` event with the scope and count when
any were removed. -/
def clearBlockersForScope (s : RegistryState) (scope : String) : RegistryState :=
  let removed :=
    s.activeBlockers.filter (fun p => (normalizeScopeToArray p.2.scope).contains scope)
  let count := removed.length
  let s1 : RegistryState :=
    { activeBlockers :=
        s.activeBlockers.filter
          (fun p => !(normalizeScopeToArray p.2.scope).contains scope),
      timers := cancelAll s.timers removed,
      trace := s.trace, now := s.now, nextTimerId := s.nextTimerId }
  if 0 < count then
    { s1 with trace := s1.trace ++ [.event
        { action := .clear_scope, blockerId := "*", config := none, timestamp := s.now,
          prevState := none, scope := some scope, count := some count }] }
  else s1

/-- The `timeout` middleware event a firing timer dispatches, built from
its captured payload. -/
def timeoutEvent (now : Int) (t : ActiveTimer) : MiddlewareContext :=
  { action := .timeout, blockerId := t.blockerId,
    config := some { scope := t.payload.evScope, reason := t.payload.evReason,
                     priority := t.payload.evPriority, timestamp := none,
                     timeout := some t.payload.evTimeout, timeoutId := none,
                     onTimeout := none },
    timestamp := now, prevState := none, scope := none, count := none }

/-- The observation of the `onTimeout` callback firing, when one was
captured. -/
def callbackObs (t : ActiveTimer) : List Obs :=
  match t.payload.onTimeout with
  | some cb => [.timeoutCallback cb t.blockerId]
  | none => []

/-- Embeds the timeout closure installed by `addBlocker` / `updateBlocker`
(lines 123-142 and 222-237): when the timer fires it is no longer pending;
if the blocker still exists the closure invokes the captured `onTimeout`
callback, dispatches a `timeout` event from the captured payload, and then
performs `removeBlocker`; otherwise nothing further happens. -/
def fireTimer (s : RegistryState) (t : ActiveTimer) : RegistryState :=
  let s1 : RegistryState := { s with timers := cancelTimer s.timers t.id }
  if mapHas s1.activeBlockers t.blockerId then
    let s2 : RegistryState :=
      { s1 with trace := s1.trace ++ callbackObs t ++ [.event (timeoutEvent s.now t)] }
    removeBlocker s2 t.blockerId
  else s1

/-- The outcome of invoking one middleware: it returns normally, or throws
or rejects with a message. -/
inductive MwResult where
  | ok
  | err (msg : String)
deriving DecidableEq, Repr

/-- A middleware callback, abstracted as a function from the event to its
outcome. -/
def Middleware : Type := MiddlewareContext → MwResult

/-- An observable step of the middleware pipeline: a callback being
invoked, or the `console.error` log produced when one throws. -/
inductive MwObs where
  | invoked (name : String) (ctx : MiddlewareContext)
  | errorLogged (name : String) (msg : String)
deriving DecidableEq, Repr

/-- Embeds `runMiddlewares` (lines 65-75): iterates the registered
middlewares in order, awaiting each; an error is caught inside the loop
and logged with the offending middleware's name, and iteration
continues. The result is the ordered trace of invocations and logs. -/
def runMiddlewares (mws : List (String × Middleware)) (ctx : MiddlewareContext) :
    List MwObs :=
  mws.foldl
    (fun acc nm =>
      acc ++ [MwObs.invoked nm.1 ctx] ++
        (match nm.2 ctx with
         | .ok => []
         | .err m => [MwObs.errorLogged nm.1 m]))
    []

/-- The per-middleware segment of the dispatch trace: the invocation,
followed by an error log when the callback throws. -/
def mwSegment (ctx : MiddlewareContext) (nm : String × Middleware) : List MwObs :=
  MwObs.invoked nm.1 ctx ::
    (match nm.2 ctx with
     | .ok => []
     | .err m => [MwObs.errorLogged nm.1 m])

/-!
Scheduled-blocker convenience wrapper (`useScheduledBlocker.ts`, the
second revision in the repository, which guards long delays).  Its helper
module `useScheduledBlocker.utils.ts` is not present in the source tree —
only its unit tests and this caller are — so the helpers below are
modelled from the specification.
-/

/-- Modelled from the spec: `MAX_TIMEOUT_MS`, the host platform's maximum
safe single-shot timer duration, "observed platform ceiling
≈ 2,147,483,647 ms"; the missing `useScheduledBlocker.utils.ts` exports
this constant and the repository's unit tests pin this exact value. -/
def MAX_TIMEOUT_MS : Int := 2147483647

/-- Modelled from the spec: `isSafeTimeout` from the missing
`useScheduledBlocker.utils.ts`; a delay is safe to schedule when it is
positive and does not exceed the platform ceiling ("a requested delay
exceeding the platform's safe maximum must produce a warning and skip
scheduling"). -/
def isSafeTimeout (delay : Int) : Bool :=
  decide (0 < delay) && decide (delay ≤ MAX_TIMEOUT_MS)

/-- Modelled from the spec: `calculateEndTime` from the missing
`useScheduledBlocker.utils.ts`; duration takes precedence over an explicit
end, and the result is absent when neither is given (an invalid end parses
to absent). -/
def calculateEndTime (duration endParsed : Option Int) (startTime : Int) : Option Int :=
  match duration with
  | some d => some (startTime + d)
  | none => endParsed

/-- Modelled from the spec: `isInBlockingPeriod` from the missing
`useScheduledBlocker.utils.ts`; the window has started and, when an end
exists, has not yet ended. -/
def isInBlockingPeriod (startTime : Int) (endTime : Option Int) (now : Int) : Bool :=
  decide (startTime ≤ now) &&
    (match endTime with
     | some e => decide (now < e)
     | none => true)

/-- Modelled from the spec: `isScheduleInPast` from the missing
`useScheduledBlocker.utils.ts`; both the start and a present end lie in
the past. -/
def isScheduleInPast (startTime : Int) (endTime : Option Int) (now : Int) : Bool :=
  match endTime with
  | some e => decide (startTime ≤ now) && decide (e ≤ now)
  | none => false

/-- What the scheduling effect of `useScheduledBlocker` did on one run:
which console messages it emitted, whether it scheduled a start timer (and
with which delay), and whether it added the blocker immediately. -/
structure ScheduleResult where
  errorInvalidStart : Bool
  warnedDelayTooLong : Bool
  warnedSchedulePast : Bool
  startTimerDelay : Option Int
  addedNow : Bool
deriving DecidableEq, Repr

/-- Embeds the effect body of `useScheduledBlocker`
(`src/unnamed/part_013`, lines 138-193): an invalid start is an error; a
future start whose delay is unsafe is warned and skipped; a safe future
start schedules a timer for the delay; otherwise the blocker starts
immediately when inside the blocking window, and a fully past schedule is
warned.  `startParsed` is the parsed start time (absent for an invalid
date). -/
def scheduledBlockerEffect (startParsed : Option Int) (now : Int)
    (duration endParsed : Option Int) : ScheduleResult :=
  match startParsed with
  | none =>
    { errorInvalidStart := true, warnedDelayTooLong := false,
      warnedSchedulePast := false, startTimerDelay := none, addedNow := false }
  | some startTime =>
    if now < startTime then
      let delay := startTime - now
      if !isSafeTimeout delay then
        { errorInvalidStart := false, warnedDelayTooLong := true,
          warnedSchedulePast := false, startTimerDelay := none, addedNow := false }
      else
        { errorInvalidStart := false, warnedDelayTooLong := false,
          warnedSchedulePast := false, startTimerDelay := some delay, addedNow := false }
    else
      let endTime := calculateEndTime duration endParsed startTime
      if isInBlockingPeriod startTime endTime now then
        { errorInvalidStart := false, warnedDelayTooLong := false,
          warnedSchedulePast := false, startTimerDelay := none, addedNow := true }
      else if isScheduleInPast startTime endTime now then
        { errorInvalidStart := false, warnedDelayTooLong := false,
          warnedSchedulePast := true, startTimerDelay := none, addedNow := false }
      else
        { errorInvalidStart := false, warnedDelayTooLong := false,
          warnedSchedulePast := false, startTimerDelay := none, addedNow := false }

/-!
Supporting lemmas on the map and timer primitives.
-/

theorem mapSet_cons (p : String × StoredBlocker) (rest : List (String × StoredBlocker))
    (k : String) (v : StoredBlocker) :
    mapSet (p :: rest) k v =
      if p.1 = k then (k, v) :: rest.map (fun q => if q.1 = k then (k, v) else q)
      else p :: mapSet rest k v := by
  by_cases h : p.1 = k
  · simp [mapSet, h]
  · by_cases hc : k ∈ rest.map Prod.fst
    · have hc2 : k ∈ (p :: rest).map Prod.fst := by simp [hc]
      simp [mapSet, h, hc, hc2]
    · have hc2 : k ∉ (p :: rest).map Prod.fst := by
        simp only [List.map_cons, List.mem_cons]
        rintro (hk | hk)
        · exact h hk.symm
        · exact hc hk
      have h2 : ¬k = p.1 := fun hh => h hh.symm
      simp [mapSet, h, h2, hc, hc2]

theorem mapGet_mem {m : List (String × StoredBlocker)} {k : String}
    {v : StoredBlocker} (h : mapGet m k = some v) : (k, v) ∈ m := by
  induction m with
  | nil => simp [mapGet] at h
  | cons p rest ih =>
    rcases p with ⟨a, b⟩
    by_cases hp : a = k
    · simp only [mapGet, hp, if_pos] at h
      have hv : b = v := Option.some.inj h
      subst hp
      subst hv
      exact List.mem_cons_self _ _
    · simp only [mapGet, hp, if_neg, not_false_iff] at h
      exact List.mem_cons_of_mem _ (ih h)

theorem mapGet_mapSet_self (m : List (String × StoredBlocker)) (k : String)
    (v : StoredBlocker) : mapGet (mapSet m k v) k = some v := by
  induction m with
  | nil => simp [mapSet, mapGet]
  | cons p rest ih =>
    rw [mapSet_cons]
    by_cases h : p.1 = k
    · simp [mapGet, h]
    · simpa [mapGet, h] using ih

theorem mem_mapSet_self (m : List (String × StoredBlocker)) (k : String)
    (v : StoredBlocker) : (k, v) ∈ mapSet m k v :=
  mapGet_mem (mapGet_mapSet_self m k v)

theorem mem_of_mem_mapSet {m : List (String × StoredBlocker)} {k : String}
    {v : StoredBlocker} {p : String × StoredBlocker} (h : p ∈ mapSet m k v) :
    p ∈ m ∨ p = (k, v) := by
  unfold mapSet at h
  by_cases hc : k ∈ m.map Prod.fst
  · simp only [hc, if_pos] at h
    rcases List.mem_map.mp h with ⟨q, hq, hfq⟩
    by_cases hqk : q.1 = k
    · right
      simpa [hqk] using hfq.symm
    · left
      have hqp : q = p := by simpa [hqk] using hfq
      exact hqp ▸ hq
  · simp only [hc, if_neg, not_false_iff] at h
    rcases List.mem_append.mp h with h1 | h1
    · exact Or.inl h1
    · exact Or.inr (List.mem_singleton.mp h1)

theorem keys_mapSet (m : List (String × StoredBlocker)) (k : String)
    (v : StoredBlocker) :
    (mapSet m k v).map Prod.fst =
      if k ∈ m.map Prod.fst then m.map Prod.fst
      else m.map Prod.fst ++ [k] := by
  unfold mapSet
  by_cases hc : k ∈ m.map Prod.fst
  · simp only [hc, if_pos, List.map_map]
    refine List.map_congr_left (fun p _ => ?_)
    by_cases hp : p.1 = k
    · simp [Function.comp, hp]
    · simp [Function.comp, hp]
  · simp [hc]

theorem nodup_keys_mapSet {m : List (String × StoredBlocker)} {k : String}
    {v : StoredBlocker} (h : (m.map Prod.fst).Nodup) :
    ((mapSet m k v).map Prod.fst).Nodup := by
  rw [keys_mapSet]
  by_cases hc : k ∈ m.map Prod.fst
  · simpa [hc] using h
  · simp [hc, List.nodup_append, h]

theorem mem_cancelTimer {ts : List ActiveTimer} {tid : Nat} {t : ActiveTimer} :
    t ∈ cancelTimer ts tid ↔ t ∈ ts ∧ t.id ≠ tid := by
  simp [cancelTimer, List.mem_filter]

theorem mem_of_mem_cancelTimerOpt {ts : List ActiveTimer} {o : Option Nat}
    {t : ActiveTimer} (h : t ∈ cancelTimerOpt ts o) : t ∈ ts := by
  cases o with
  | none => exact h
  | some tid => exact (mem_cancelTimer.mp h).1

theorem mem_of_mem_cancelAll {ps : List (String × StoredBlocker)} :
    ∀ {ts : List ActiveTimer} {t : ActiveTimer}, t ∈ cancelAll ts ps → t ∈ ts := by
  induction ps with
  | nil => intro ts t h; exact h
  | cons q rest ih =>
    intro ts t h
    exact mem_of_mem_cancelTimerOpt (ih h)

theorem cancelAll_clears {ps : List (String × StoredBlocker)}
    {p : String × StoredBlocker} {tid : Nat} (hp : p ∈ ps)
    (htid : p.2.timeoutId = some tid) :
    ∀ {ts : List ActiveTimer} {t : ActiveTimer}, t ∈ cancelAll ts ps → t.id ≠ tid := by
  induction ps with
  | nil => cases hp
  | cons q rest ih =>
    intro ts t ht
    rcases List.mem_cons.mp hp with hq | hq
    · have hmem : t ∈ cancelTimerOpt ts q.2.timeoutId := mem_of_mem_cancelAll ht
      rw [← hq, htid] at hmem
      exact (mem_cancelTimer.mp hmem).2
    · exact ih hq ht

/-!
Claim theorems.
-/

/-- C1: `isBlocked(scopeOrScopes)` normalizes its input (defaulting to
`"global"`) and returns true if and only if some stored blocker has scope
`"global"` or some stored blocker's normalized scope list intersects the
queried scope list; in particular it returns false for every query on an
empty registry, and after `add(id, {scope:"global"})` it returns true for
every possible scope argument. -/
theorem uiblock_c1_isBlocked_characterization :
    ∀ (s : RegistryState) (q : Option Scope),
      (isBlocked s q = true ↔
        ∃ p ∈ s.activeBlockers,
          p.2.scope = Scope.str DEFAULT_SCOPE ∨
            ∃ x ∈ normalizeScopeToArray (q.getD (Scope.str DEFAULT_SCOPE)),
              x ∈ normalizeScopeToArray p.2.scope)
      ∧ (s.activeBlockers = [] → isBlocked s q = false)
      ∧ (∀ (id : String) (c : BlockerConfig), c.scope = some (Scope.str DEFAULT_SCOPE) →
          isBlocked (addBlocker s id c) q = true) := by
  intro s q
  refine ⟨?_, ?_, ?_⟩
  · simp [isBlocked, List.any_eq_true, List.elem_iff]
  · intro h
    simp [isBlocked, h]
  · intro id c hs
    simp only [isBlocked, addBlocker, List.any_eq_true]
    refine ⟨(id, _), mem_mapSet_self _ _ _, ?_⟩
    simp [hs]

/-- Witness for C1: the empty registry blocks nothing, and a single global
blocker blocks an arbitrary scope. -/
theorem uiblock_c1_witness :
    isBlocked initialState (some (Scope.str "form")) = false
    ∧ isBlocked
        (addBlocker initialState "b" { emptyCfg with scope := some (Scope.str "global") })
        (some (Scope.str "form")) = true :=
  ⟨(uiblock_c1_isBlocked_characterization initialState (some (Scope.str "form"))).2.1 rfl,
   (uiblock_c1_isBlocked_characterization initialState (some (Scope.str "form"))).2.2
     "b" { emptyCfg with scope := some (Scope.str "global") } rfl⟩

theorem normalizePriority_nonneg {pr : Option Int} {fallback : Int}
    (h : 0 ≤ fallback) : 0 ≤ normalizePriority pr fallback := by
  cases pr with
  | none => simpa [normalizePriority] using h
  | some p => simp [normalizePriority, le_max_left]

/-- C2: for every priority `p` supplied to add or update, the stored
priority afterwards equals `max(0, p)`; on update with priority omitted
the previously stored value is kept; and non-negativity of all stored
priorities is preserved by both writes. -/
theorem uiblock_c2_priority_clamped :
    ∀ (s : RegistryState) (id : String) (c : BlockerConfig),
      (∀ p : Int, c.priority = some p →
        ((mapGet (addBlocker s id c).activeBlockers id).map StoredBlocker.priority
            = some (max 0 p))
        ∧ (∀ existing, mapGet s.activeBlockers id = some existing →
            (mapGet (updateBlocker s id c).activeBlockers id).map StoredBlocker.priority
              = some (max 0 p)))
      ∧ (c.priority = none → ∀ existing, mapGet s.activeBlockers id = some existing →
          (mapGet (updateBlocker s id c).activeBlockers id).map StoredBlocker.priority
            = some existing.priority)
      ∧ ((∀ q ∈ s.activeBlockers, 0 ≤ q.2.priority) →
          (∀ q ∈ (addBlocker s id c).activeBlockers, 0 ≤ q.2.priority)
          ∧ (∀ q ∈ (updateBlocker s id c).activeBlockers, 0 ≤ q.2.priority)) := by
  intro s id c
  refine ⟨?_, ?_, ?_⟩
  · intro p hp
    constructor
    · simp only [addBlocker, mapGet_mapSet_self]
      simp [normalizePriority, hp]
    · intro existing hex
      simp only [updateBlocker, hex, mapGet_mapSet_self]
      simp [normalizePriority, hp]
  · intro hp existing hex
    simp only [updateBlocker, hex, mapGet_mapSet_self]
    simp [normalizePriority, hp]
  · intro hall
    have haddNonneg : ∀ q ∈ (addBlocker s id c).activeBlockers, 0 ≤ q.2.priority := by
      intro q hq
      simp only [addBlocker] at hq
      rcases mem_of_mem_mapSet hq with h | h
      · exact hall q h
      · subst h
        exact normalizePriority_nonneg le_rfl
    refine ⟨haddNonneg, ?_⟩
    intro q hq
    rcases hex : mapGet s.activeBlockers id with _ | existing
    · simp only [updateBlocker, hex] at hq
      exact haddNonneg q hq
    · simp only [updateBlocker, hex] at hq
      rcases mem_of_mem_mapSet hq with h | h
      · exact hall q h
      · subst h
        exact normalizePriority_nonneg (hall _ (mapGet_mem hex))

/-- Witness for C2: adding with priority `-5` stores `0`; updating with
priority `-3` stores `0`; updating without a priority keeps the stored
value. -/
theorem uiblock_c2_witness :
    ((mapGet (addBlocker initialState "b"
        { emptyCfg with priority := some (-5) }).activeBlockers "b").map
      StoredBlocker.priority = some (max 0 (-5)))
    ∧ ((mapGet (updateBlocker
          (addBlocker initialState "b" { emptyCfg with priority := some 7 }) "b"
          emptyCfg).activeBlockers "b").map StoredBlocker.priority = some 7) :=
  ⟨((uiblock_c2_priority_clamped initialState "b"
      { emptyCfg with priority := some (-5) }).1 (-5) rfl).1,
   (uiblock_c2_priority_clamped
      (addBlocker initialState "b" { emptyCfg with priority := some 7 }) "b"
      emptyCfg).2.1 rfl
     { scope := Scope.str "global", reason := "Unknown", priority := 7,
       timestamp := 0, timeout := none, timeoutId := none, onTimeout := none }
     (by decide)⟩

/-- C3 (amended): when a blocker's timeout timer fires while the blocker
is still present, the registry performs, in order: (1) invoke the captured
`onTimeout` callback, if present, with the blocker id; (2) dispatch a
`timeout` middleware event carrying the scope, reason, priority and
timeout captured when the timer was scheduled (not necessarily the
blocker's values at fire time); (3) perform the equivalent of
`remove(id)`, which itself dispatches a `remove` event. If the blocker was
already removed before the timer fires, the firing is a no-op beyond
retiring the timer. -/
theorem uiblock_c3_timeout_firing :
    ∀ (s : RegistryState) (t : ActiveTimer),
      (∀ prev, mapGet s.activeBlockers t.blockerId = some prev →
        fireTimer s t =
          { activeBlockers := mapDelete s.activeBlockers t.blockerId,
            timers := cancelTimerOpt (cancelTimer s.timers t.id) prev.timeoutId,
            trace := s.trace ++ callbackObs t ++
              [Obs.event (timeoutEvent s.now t),
               Obs.event (removeEvent s.now t.blockerId prev)],
            now := s.now, nextTimerId := s.nextTimerId })
      ∧ (mapGet s.activeBlockers t.blockerId = none →
          fireTimer s t = { s with timers := cancelTimer s.timers t.id }) := by
  intro s t
  constructor
  · intro prev hprev
    simp [fireTimer, mapHas, hprev, removeBlocker, List.append_assoc]
  · intro hnone
    simp [fireTimer, mapHas, hnone]

/-- Witness for C3 (amended): a concrete firing with the blocker present,
and a concrete no-op firing on an empty registry. -/
theorem uiblock_c3_witness :
    fireTimer
        (addBlocker initialState "b"
          { emptyCfg with timeout := some 50, onTimeout := some 9 })
        { id := 0, blockerId := "b", fireAt := 50,
          payload := { evScope := none, evReason := none, evPriority := none,
                       evTimeout := 50, onTimeout := some 9 } } =
      { activeBlockers := [],
        timers := [],
        trace := (addBlocker initialState "b"
            { emptyCfg with timeout := some 50, onTimeout := some 9 }).trace ++
          [Obs.timeoutCallback 9 "b",
           Obs.event (timeoutEvent 0
             { id := 0, blockerId := "b", fireAt := 50,
               payload := { evScope := none, evReason := none, evPriority := none,
                            evTimeout := 50, onTimeout := some 9 } }),
           Obs.event (removeEvent 0 "b"
             { scope := Scope.str "global", reason := "Unknown", priority := 0,
               timestamp := 0, timeout := some 50, timeoutId := some 0,
               onTimeout := some 9 })]
        , now := 0, nextTimerId := 1 }
    ∧ fireTimer initialState
        { id := 3, blockerId := "z", fireAt := 1,
          payload := { evScope := none, evReason := none, evPriority := none,
                       evTimeout := 1, onTimeout := none } } =
      { initialState with timers := [] } := by
  constructor
  · have h := (uiblock_c3_timeout_firing
      (addBlocker initialState "b"
        { emptyCfg with timeout := some 50, onTimeout := some 9 })
      { id := 0, blockerId := "b", fireAt := 50,
        payload := { evScope := none, evReason := none, evPriority := none,
                     evTimeout := 50, onTimeout := some 9 } }).1
      { scope := Scope.str "global", reason := "Unknown", priority := 0,
        timestamp := 0, timeout := some 50, timeoutId := some 0, onTimeout := some 9 }
      (by decide)
    rw [h]
    decide
  · exact (uiblock_c3_timeout_firing initialState
      { id := 3, blockerId := "z", fireAt := 1,
        payload := { evScope := none, evReason := none, evPriority := none,
                     evTimeout := 1, onTimeout := none } }).2 (by decide)

/-- The add used by the C3 counterexample: scope "a", reason "r", a
100 ms timeout. -/
def c3cfg1 : BlockerConfig :=
  { emptyCfg with
      scope := some (Scope.str "a"), reason := some "r", timeout := some 100 }

/-- State after `add("b", c3cfg1)`. -/
def c3s1 : RegistryState := addBlocker initialState "b" c3cfg1

/-- State after a further `update("b", {reason:"r2"})`, which leaves the
pending timer untouched. -/
def c3s2 : RegistryState := updateBlocker c3s1 "b" { emptyCfg with reason := some "r2" }

/-- The timer pending in `c3s2`, scheduled by the add and therefore
carrying the reason "r" captured at that moment. -/
def c3timer : ActiveTimer :=
  { id := 0, blockerId := "b", fireAt := 100,
    payload := { evScope := some (Scope.str "a"), evReason := some "r",
                 evPriority := none, evTimeout := 100, onTimeout := none } }

/-- Counterexample to C3 as stated: after `add("b", {scope:"a", reason:"r",
timeout:100})` and `update("b", {reason:"r2"})`, the blocker's current
reason is "r2" but the timer that then fires dispatches a `timeout` event
carrying reason "r" — the event does not carry the blocker's current
reason, refuting the claim that the dispatched event carries the blocker's
current scope/reason/priority/timeout. -/
theorem uiblock_c3_counterexample :
    (mapGet c3s2.activeBlockers "b").map StoredBlocker.reason = some "r2"
    ∧ c3s2.timers = [c3timer]
    ∧ (fireTimer c3s2 c3timer).trace.drop 2 =
        [Obs.event (timeoutEvent c3s2.now c3timer),
         Obs.event (removeEvent c3s2.now "b"
           { scope := Scope.str "a", reason := "r2", priority := 0, timestamp := 0,
             timeout := some 100, timeoutId := some 0, onTimeout := none })]
    ∧ (timeoutEvent c3s2.now c3timer).config.map EventConfig.reason = some (some "r")
    ∧ ("r" : String) ≠ "r2" := by
  refine ⟨by decide, by decide, by decide, by decide, by decide⟩

/-- C4: for `update(id, partialConfig)` on an existing blocker, the timer
handling satisfies the three-case rule: (a) timeout not supplied — the
timer set is untouched and the stored handle is kept; (b) timeout supplied
with a new value `t > 0` differing from the stored one — the old handle's
timer is cancelled and a fresh timer is appended that counts the full
duration from the update call (`fireAt = now + t`); (c) timeout supplied
as `0` — the old handle's timer is cancelled with no replacement and the
blocker itself remains present. -/
theorem uiblock_c4_update_timer_cases :
    ∀ (s : RegistryState) (id : String) (c : BlockerConfig) (existing : StoredBlocker),
      mapGet s.activeBlockers id = some existing →
      ((c.timeout = none →
          (updateBlocker s id c).timers = s.timers
          ∧ (mapGet (updateBlocker s id c).activeBlockers id).map StoredBlocker.timeoutId
              = some existing.timeoutId)
      ∧ (∀ t : Int, c.timeout = some t → some t ≠ existing.timeout → 0 < t →
          (updateBlocker s id c).timers
            = cancelTimerOpt s.timers existing.timeoutId
              ++ [{ id := s.nextTimerId, blockerId := id, fireAt := s.now + t,
                    payload := { evScope := some (c.scope.getD existing.scope),
                                 evReason := some (c.reason.getD existing.reason),
                                 evPriority := some (c.priority.getD existing.priority),
                                 evTimeout := t,
                                 onTimeout := orElseO c.onTimeout existing.onTimeout } }]
          ∧ (mapGet (updateBlocker s id c).activeBlockers id).map StoredBlocker.timeoutId
              = some (some s.nextTimerId))
      ∧ (c.timeout = some 0 → existing.timeout ≠ some 0 →
          (updateBlocker s id c).timers = cancelTimerOpt s.timers existing.timeoutId
          ∧ (mapGet (updateBlocker s id c).activeBlockers id).map StoredBlocker.timeoutId
              = some none
          ∧ mapHas (updateBlocker s id c).activeBlockers id = true)) := by
  intro s id c existing hex
  refine ⟨?_, ?_, ?_⟩
  · intro h
    simp [updateBlocker, hex, h, mapGet_mapSet_self]
  · intro t h hne hpos
    simp [updateBlocker, hex, h, hne, hpos, wantsTimer, mapGet_mapSet_self]
  · intro h hne0
    have hne : ¬(some (0 : Int) = existing.timeout) := fun hh => hne0 hh.symm
    simp [updateBlocker, hex, h, hne, wantsTimer, mapGet_mapSet_self, mapHas]

/-- The base state for the C4 witness: one blocker with a 100 ms timer. -/
def c4s0 : RegistryState :=
  addBlocker initialState "b" { emptyCfg with timeout := some 100 }

/-- The blocker stored in `c4s0`. -/
def c4existing : StoredBlocker :=
  { scope := Scope.str "global", reason := "Unknown", priority := 0, timestamp := 0,
    timeout := some 100, timeoutId := some 0, onTimeout := none }

/-- Witness for C4: the three cases at concrete inputs — a reason-only
update keeps the timer set intact, a timeout change to 200 cancels the old
timer and appends a fresh one counting from the update call, and a timeout
of 0 cancels with no replacement while the blocker stays present. -/
theorem uiblock_c4_witness :
    ((updateBlocker c4s0 "b" { emptyCfg with reason := some "x" }).timers = c4s0.timers
      ∧ (mapGet (updateBlocker c4s0 "b"
            { emptyCfg with reason := some "x" }).activeBlockers "b").map
          StoredBlocker.timeoutId = some (some 0))
    ∧ ((updateBlocker c4s0 "b" { emptyCfg with timeout := some 200 }).timers
          = [{ id := 1, blockerId := "b", fireAt := 200,
               payload := { evScope := some (Scope.str "global"),
                            evReason := some "Unknown", evPriority := some 0,
                            evTimeout := 200, onTimeout := none } }]
      ∧ (mapGet (updateBlocker c4s0 "b"
            { emptyCfg with timeout := some 200 }).activeBlockers "b").map
          StoredBlocker.timeoutId = some (some 1))
    ∧ ((updateBlocker c4s0 "b" { emptyCfg with timeout := some 0 }).timers = []
      ∧ mapHas (updateBlocker c4s0 "b"
          { emptyCfg with timeout := some 0 }).activeBlockers "b" = true) := by
  have hA := (uiblock_c4_update_timer_cases c4s0 "b"
    { emptyCfg with reason := some "x" } c4existing (by decide)).1 rfl
  have hB := (uiblock_c4_update_timer_cases c4s0 "b"
    { emptyCfg with timeout := some 200 } c4existing (by decide)).2.1
    200 rfl (by decide) (by decide)
  have hC := (uiblock_c4_update_timer_cases c4s0 "b"
    { emptyCfg with timeout := some 0 } c4existing (by decide)).2.2 rfl (by decide)
  refine ⟨⟨hA.1, ?_⟩, ⟨?_, ?_⟩, ⟨?_, hC.2.2⟩⟩
  · simpa using hA.2
  · rw [hB.1]
    decide
  · simpa using hB.2
  · rw [hC.1]
    decide

theorem clearScope_activeBlockers (s : RegistryState) (scope : String) :
    (clearBlockersForScope s scope).activeBlockers =
      s.activeBlockers.filter
        (fun p => !(normalizeScopeToArray p.2.scope).contains scope) := by
  simp only [clearBlockersForScope]
  split <;> rfl

theorem clearScope_timers (s : RegistryState) (scope : String) :
    (clearBlockersForScope s scope).timers =
      cancelAll s.timers
        (s.activeBlockers.filter
          (fun p => (normalizeScopeToArray p.2.scope).contains scope)) := by
  simp only [clearBlockersForScope]
  split <;> rfl

theorem clearAll_activeBlockers (s : RegistryState) :
    (clearAllBlockers s).activeBlockers = [] := by
  simp only [clearAllBlockers]
  split <;> rfl

theorem clearAll_timers (s : RegistryState) :
    (clearAllBlockers s).timers = cancelAll s.timers s.activeBlockers := by
  simp only [clearAllBlockers]
  split <;> rfl

/-- The state used by the C5 counterexample: a single blocker whose scope
is exactly the string "global". -/
def c5s : RegistryState :=
  addBlocker initialState "g" { emptyCfg with scope := some (Scope.str "global") }

/-- Counterexample to C5 as stated: the claim says `clearScope(scope)`
never removes a blocker whose scope is exactly "global" for every scope
argument, but for the scope argument "global" itself the normalized scope
list `["global"]` contains the queried scope, so the global blocker is
removed. -/
theorem uiblock_c5_counterexample :
    (mapGet c5s.activeBlockers "g").map StoredBlocker.scope = some (Scope.str "global")
    ∧ (clearBlockersForScope c5s "global").activeBlockers = [] := by
  exact ⟨by decide, by decide⟩

/-- C5 (amended): `clearScope(scope)` removes exactly the blockers whose
normalized scope list contains that scope — in particular, for every
queried scope other than "global" it never removes a blocker whose scope
is exactly "global" — while `clearAll()` removes every blocker including
global ones; both cancel the timers of the blockers they remove. -/
theorem uiblock_c5_clear_semantics :
    ∀ (s : RegistryState) (scope : String),
      (∀ p, p ∈ (clearBlockersForScope s scope).activeBlockers ↔
          p ∈ s.activeBlockers ∧ scope ∉ normalizeScopeToArray p.2.scope)
      ∧ (scope ≠ DEFAULT_SCOPE → ∀ p ∈ s.activeBlockers,
          p.2.scope = Scope.str DEFAULT_SCOPE →
            p ∈ (clearBlockersForScope s scope).activeBlockers)
      ∧ (clearAllBlockers s).activeBlockers = []
      ∧ (∀ p tid, p ∈ s.activeBlockers → scope ∈ normalizeScopeToArray p.2.scope →
          p.2.timeoutId = some tid →
          ∀ t ∈ (clearBlockersForScope s scope).timers, t.id ≠ tid)
      ∧ (∀ p tid, p ∈ s.activeBlockers → p.2.timeoutId = some tid →
          ∀ t ∈ (clearAllBlockers s).timers, t.id ≠ tid) := by
  intro s scope
  refine ⟨?_, ?_, clearAll_activeBlockers s, ?_, ?_⟩
  · intro p
    rw [clearScope_activeBlockers]
    simp [List.mem_filter, List.elem_iff]
  · intro hs p hp hglob
    rw [clearScope_activeBlockers]
    refine List.mem_filter.mpr ⟨hp, ?_⟩
    simp only [hglob, normalizeScopeToArray, Bool.not_eq_eq_eq_not, Bool.not_true]
    simp [List.elem_iff, DEFAULT_SCOPE]
    exact fun hh => hs (hh.symm ▸ rfl)
  · intro p tid hp hsc htid t ht
    rw [clearScope_timers] at ht
    exact cancelAll_clears
      (List.mem_filter.mpr ⟨hp, by simpa [List.elem_iff] using hsc⟩) htid ht
  · intro p tid hp htid t ht
    rw [clearAll_timers] at ht
    exact cancelAll_clears hp htid ht

/-- The state used by the C5 witness: a global blocker and a "form"
blocker that owns the pending timer with handle 0. -/
def c5w : RegistryState :=
  addBlocker
    (addBlocker initialState "g" { emptyCfg with scope := some (Scope.str "global") })
    "f" { emptyCfg with scope := some (Scope.str "form"), timeout := some 10 }

/-- The global blocker entry stored in `c5w`. -/
def c5wGlobal : String × StoredBlocker :=
  ("g", { scope := Scope.str "global", reason := "Unknown", priority := 0,
          timestamp := 0, timeout := none, timeoutId := none, onTimeout := none })

/-- The "form" blocker entry stored in `c5w`; its timer handle is 0. -/
def c5wForm : String × StoredBlocker :=
  ("f", { scope := Scope.str "form", reason := "Unknown", priority := 0,
          timestamp := 0, timeout := some 10, timeoutId := some 0, onTimeout := none })

/-- Witness for C5 (amended): clearing scope "form" keeps the global
blocker and retires the form blocker's timer, and `clearAll` empties the
registry. -/
theorem uiblock_c5_witness :
    c5wGlobal ∈ (clearBlockersForScope c5w "form").activeBlockers
    ∧ (clearAllBlockers c5w).activeBlockers = []
    ∧ ¬({ id := 0, blockerId := "f", fireAt := 10,
          payload := { evScope := some (Scope.str "form"), evReason := none,
                       evPriority := none, evTimeout := 10, onTimeout := none } }
            : ActiveTimer) ∈ (clearBlockersForScope c5w "form").timers :=
  ⟨(uiblock_c5_clear_semantics c5w "form").2.1 (by decide) c5wGlobal (by decide) rfl,
   (uiblock_c5_clear_semantics c5w "form").2.2.1,
   fun ht =>
     (uiblock_c5_clear_semantics c5w "form").2.2.2.1 c5wForm 0 (by decide) (by decide)
       rfl _ ht rfl⟩

/-- A config with scope "s" and the given priority, for the C6 example. -/
def c6cfg (p : Int) : BlockerConfig :=
  { emptyCfg with scope := some (Scope.str "s"), priority := some p }

/-- Three blockers under one scope with priorities 10, 100, 50, inserted
in that order. -/
def c6ex : RegistryState :=
  addBlocker (addBlocker (addBlocker initialState "a" (c6cfg 10)) "b" (c6cfg 100))
    "c" (c6cfg 50)

/-- C6: `getBlockingInfo(scope)` returns exactly the blockers whose scope
is "global" or whose normalized scope list contains the queried scope,
each annotated with its id, sorted by descending priority; inserting three
blockers with priorities 10, 100, 50 under one scope yields the order
[100, 50, 10]. -/
theorem uiblock_c6_getBlockingInfo :
    (∀ (s : RegistryState) (scope : String),
      List.Sorted priorityDesc (getBlockingInfo s scope)
      ∧ (getBlockingInfo s scope).Perm
          ((s.activeBlockers.filter (fun p => blockerMatches scope p.2)).map toInfo)
      ∧ (∀ x, x ∈ getBlockingInfo s scope ↔
          ∃ p ∈ s.activeBlockers,
            (p.2.scope = Scope.str DEFAULT_SCOPE
              ∨ scope ∈ normalizeScopeToArray p.2.scope)
            ∧ x = toInfo p))
    ∧ (getBlockingInfo c6ex "s").map BlockerInfo.priority = [100, 50, 10] := by
  constructor
  · intro s scope
    refine ⟨List.sorted_insertionSort priorityDesc _,
            List.perm_insertionSort priorityDesc _, ?_⟩
    intro x
    rw [getBlockingInfo, List.mem_insertionSort, List.mem_map]
    constructor
    · rintro ⟨p, hp, rfl⟩
      rcases List.mem_filter.mp hp with ⟨hmem, hmatch⟩
      refine ⟨p, hmem, ?_, rfl⟩
      simpa [blockerMatches, List.elem_iff] using hmatch
    · rintro ⟨p, hmem, hmatch, rfl⟩
      refine ⟨p, List.mem_filter.mpr ⟨hmem, ?_⟩, rfl⟩
      simpa [blockerMatches, List.elem_iff] using hmatch
  · decide

/-- The caller-observable part of a stored blocker: every field except the
opaque timer handle, which the spec never exposes; whether a timer is
pending is kept as a flag. -/
structure BlockerView where
  scope : Scope
  reason : String
  priority : Int
  timestamp : Int
  timeout : Option Int
  onTimeout : Option Nat
  hasTimer : Bool
deriving DecidableEq, Repr

/-- Projects a stored blocker to its observable view. -/
def StoredBlocker.view (b : StoredBlocker) : BlockerView :=
  { scope := b.scope, reason := b.reason, priority := b.priority,
    timestamp := b.timestamp, timeout := b.timeout, onTimeout := b.onTimeout,
    hasTimer := b.timeoutId.isSome }

/-- C7: `add(id, c1)` followed by `add(id, c2)` leaves a stored record
observably equal to the one produced by `add(id, c2)` alone (full
replacement — no field of `c1` survives); the timer started for `c1`, if
any, is pending after the first add and cancelled by the second; and key
uniqueness (at most one record per id) is preserved. -/
theorem uiblock_c7_readd_replaces :
    ∀ (s : RegistryState) (id : String) (c1 c2 : BlockerConfig),
      ((mapGet (addBlocker (addBlocker s id c1) id c2).activeBlockers id).map
          StoredBlocker.view
        = (mapGet (addBlocker s id c2).activeBlockers id).map StoredBlocker.view)
      ∧ (∀ t : Int, c1.timeout = some t → 0 < t →
          ({ id := s.nextTimerId, blockerId := id, fireAt := s.now + t,
             payload := { evScope := c1.scope, evReason := c1.reason,
                          evPriority := c1.priority, evTimeout := t,
                          onTimeout := c1.onTimeout } } : ActiveTimer)
              ∈ (addBlocker s id c1).timers
          ∧ ∀ tm ∈ (addBlocker (addBlocker s id c1) id c2).timers,
              tm.id ≠ s.nextTimerId)
      ∧ ((s.activeBlockers.map Prod.fst).Nodup →
          ((addBlocker (addBlocker s id c1) id c2).activeBlockers.map Prod.fst).Nodup) := by
  intro s id c1 c2
  refine ⟨?_, ?_, ?_⟩
  · cases hw1 : wantsTimer c1.timeout <;> cases hw2 : wantsTimer c2.timeout <;>
      simp [addBlocker, mapGet_mapSet_self, hw1, hw2, StoredBlocker.view]
  · intro t h hpos
    have hwt : wantsTimer (some t) = true := by simp [wantsTimer, hpos]
    constructor
    · simp [addBlocker, h, hwt]
    · intro tm htm
      cases hw2 : wantsTimer c2.timeout
      · simp [addBlocker, mapGet_mapSet_self, h, hwt, hw2, cancelTimerOpt,
          mem_cancelTimer] at htm
        exact htm.2
      · simp [addBlocker, mapGet_mapSet_self, h, hwt, hw2, cancelTimerOpt,
          mem_cancelTimer, List.mem_append] at htm
        rcases htm with h1 | h1
        · exact h1.2
        · rw [h1]
          simp
  · intro hnd
    exact nodup_keys_mapSet (nodup_keys_mapSet hnd)

/-- First config of the C7 witness: reason "one" and a 5 ms timeout. -/
def c7c1 : BlockerConfig := { emptyCfg with reason := some "one", timeout := some 5 }

/-- Second config of the C7 witness: reason "two", no timeout. -/
def c7c2 : BlockerConfig := { emptyCfg with reason := some "two" }

/-- Witness for C7: re-adding id "b" observably equals a single add of the
second config, the first add's timer (handle 0) is pending after the first
add and gone after the second, and key uniqueness holds. -/
theorem uiblock_c7_witness :
    ((mapGet (addBlocker (addBlocker initialState "b" c7c1) "b" c7c2).activeBlockers
        "b").map StoredBlocker.view
      = (mapGet (addBlocker initialState "b" c7c2).activeBlockers "b").map
          StoredBlocker.view)
    ∧ ({ id := 0, blockerId := "b", fireAt := 5,
         payload := { evScope := none, evReason := some "one", evPriority := none,
                      evTimeout := 5, onTimeout := none } } : ActiveTimer)
        ∈ (addBlocker initialState "b" c7c1).timers
    ∧ ¬({ id := 0, blockerId := "b", fireAt := 5,
          payload := { evScope := none, evReason := some "one", evPriority := none,
                       evTimeout := 5, onTimeout := none } } : ActiveTimer)
        ∈ (addBlocker (addBlocker initialState "b" c7c1) "b" c7c2).timers
    ∧ ((addBlocker (addBlocker initialState "b" c7c1) "b"
          c7c2).activeBlockers.map Prod.fst).Nodup :=
  ⟨(uiblock_c7_readd_replaces initialState "b" c7c1 c7c2).1,
   ((uiblock_c7_readd_replaces initialState "b" c7c1 c7c2).2.1 5 rfl (by decide)).1,
   fun ht =>
     ((uiblock_c7_readd_replaces initialState "b" c7c1 c7c2).2.1 5 rfl (by decide)).2
       _ ht rfl,
   (uiblock_c7_readd_replaces initialState "b" c7c1 c7c2).2.2 (by decide)⟩

theorem runMiddlewares_foldl (ctx : MiddlewareContext) :
    ∀ (mws : List (String × Middleware)) (acc : List MwObs),
      mws.foldl
        (fun acc nm =>
          acc ++ [MwObs.invoked nm.1 ctx] ++
            (match nm.2 ctx with
             | .ok => []
             | .err m => [MwObs.errorLogged nm.1 m]))
        acc
      = acc ++ mws.flatMap (mwSegment ctx) := by
  intro mws
  induction mws with
  | nil => intro acc; simp
  | cons nm rest ih =>
    intro acc
    rw [List.foldl_cons, ih]
    simp [mwSegment, List.append_assoc]

/-- Extracts the middleware name from an invocation observation. -/
def invokedName : MwObs → Option String
  | .invoked n _ => some n
  | .errorLogged _ _ => none

/-- C8: dispatch invokes every registered callback in registration order,
one after the other; a callback that throws is caught locally and logged
with the offending middleware's name, and neither prevents any
later-registered callback from being invoked for the same event nor
removes any invocation from the dispatch trace (the state mutation happens
before the dispatch and is not touched by it — `runMiddlewares` receives
only the event context). -/
theorem uiblock_c8_middleware_isolation :
    ∀ (ctx : MiddlewareContext),
      (∀ mws : List (String × Middleware),
        runMiddlewares mws ctx = mws.flatMap (mwSegment ctx)
        ∧ (runMiddlewares mws ctx).filterMap invokedName = mws.map Prod.fst)
      ∧ (∀ (pre post : List (String × Middleware)) (name : String) (mw : Middleware)
            (msg : String), mw ctx = .err msg →
          runMiddlewares (pre ++ (name, mw) :: post) ctx
            = runMiddlewares pre ctx
              ++ [MwObs.invoked name ctx, MwObs.errorLogged name msg]
              ++ runMiddlewares post ctx) := by
  intro ctx
  have hflat : ∀ mws : List (String × Middleware),
      runMiddlewares mws ctx = mws.flatMap (mwSegment ctx) := by
    intro mws
    exact runMiddlewares_foldl ctx mws []
  constructor
  · intro mws
    refine ⟨hflat mws, ?_⟩
    rw [hflat]
    induction mws with
    | nil => simp
    | cons nm rest ih =>
      rw [List.flatMap_cons, List.filterMap_append, ih]
      cases hr : nm.2 ctx <;> simp [mwSegment, hr, invokedName]
  · intro pre post name mw msg hmw
    rw [hflat, hflat, hflat, List.flatMap_append, List.flatMap_cons]
    simp [mwSegment, hmw, List.append_assoc]

/-- A middleware that always returns normally. -/
def c8ok : Middleware := fun _ => MwResult.ok

/-- A middleware that always throws with message "boom". -/
def c8throwing : Middleware := fun _ => MwResult.err "boom"

/-- A concrete `add` event for the C8 witness. -/
def c8ctx : MiddlewareContext :=
  { action := .add, blockerId := "b", config := none, timestamp := 0,
    prevState := none, scope := none, count := none }

/-- Witness for C8: with a throwing middleware registered between two
well-behaved ones, all three are invoked in registration order and the
error is logged with the thrower's name. -/
theorem uiblock_c8_witness :
    runMiddlewares ([("m0", c8ok)] ++ ("m1", c8throwing) :: [("m2", c8ok)]) c8ctx
      = [MwObs.invoked "m0" c8ctx, MwObs.invoked "m1" c8ctx,
         MwObs.errorLogged "m1" "boom", MwObs.invoked "m2" c8ctx] :=
  ((uiblock_c8_middleware_isolation c8ctx).2 [("m0", c8ok)] [("m2", c8ok)]
    "m1" c8throwing "boom" rfl).trans (by rfl)

/-- C9: in the scheduled-blocking convenience wrapper, every requested
start delay exceeding the platform ceiling of 2,147,483,647 ms is skipped
with a warning: no start timer is scheduled, no blocker is added, nothing
fires immediately and no error is raised. -/
theorem uiblock_c9_overlong_delay_skipped :
    ∀ (startTime now : Int) (duration endParsed : Option Int),
      now < startTime → MAX_TIMEOUT_MS < startTime - now →
      scheduledBlockerEffect (some startTime) now duration endParsed =
        { errorInvalidStart := false, warnedDelayTooLong := true,
          warnedSchedulePast := false, startTimerDelay := none, addedNow := false } := by
  intro startTime now duration endParsed h1 h2
  have hle : ¬(startTime - now ≤ MAX_TIMEOUT_MS) := not_le.mpr h2
  simp [scheduledBlockerEffect, isSafeTimeout, h1, hle]

/-- Witness for C9: a start 2,147,483,648 ms in the future is warned and
skipped. -/
theorem uiblock_c9_witness :
    scheduledBlockerEffect (some 2147483648) 0 none none =
      { errorInvalidStart := false, warnedDelayTooLong := true,
        warnedSchedulePast := false, startTimerDelay := none, addedNow := false } :=
  uiblock_c9_overlong_delay_skipped 2147483648 0 none none (by decide) (by decide)

/-- A registry holding one blocker whose scope is the one-element list
`["global"]` (not the bare string). -/
def c10arr : RegistryState :=
  addBlocker initialState "b1" { emptyCfg with scope := some (Scope.arr ["global"]) }

/-- A registry holding one blocker whose scope is the exact string
`"global"`. -/
def c10str : RegistryState :=
  addBlocker initialState "b1" { emptyCfg with scope := some (Scope.str "global") }

/-- C10: the global-blocks-everything rule fires only on the exact string
"global": a blocker stored with the one-element list `["global"]` as its
scope blocks no other scope — `isBlocked(s)` is false and
`getBlockingInfo(s)` omits it for every queried scope `s ≠ "global"` —
while the same blocker given as the string "global" blocks every scope. -/
theorem uiblock_c10_global_string_only :
    ∀ sc : String, sc ≠ "global" →
      isBlocked c10arr (some (Scope.str sc)) = false
      ∧ getBlockingInfo c10arr sc = []
      ∧ isBlocked c10str (some (Scope.str sc)) = true := by
  intro sc hsc
  have harr : c10arr.activeBlockers =
      [("b1", { scope := Scope.arr ["global"], reason := "Unknown", priority := 0,
                timestamp := 0, timeout := none, timeoutId := none,
                onTimeout := none })] := by decide
  have hstr : c10str.activeBlockers =
      [("b1", { scope := Scope.str "global", reason := "Unknown", priority := 0,
                timestamp := 0, timeout := none, timeoutId := none,
                onTimeout := none })] := by decide
  refine ⟨?_, ?_, ?_⟩
  · rw [isBlocked, harr]
    simp [normalizeScopeToArray, List.elem_iff]
    exact fun h => absurd h hsc
  · rw [getBlockingInfo, harr]
    have hmatch : blockerMatches sc
        { scope := Scope.arr ["global"], reason := "Unknown", priority := 0,
          timestamp := 0, timeout := none, timeoutId := none,
          onTimeout := none } = false := by
      simp [blockerMatches, normalizeScopeToArray, List.elem_iff]
      exact fun h => absurd h hsc
    simp [hmatch, List.insertionSort]
  · rw [isBlocked, hstr]
    simp [DEFAULT_SCOPE]

/-- Witness for C10: the list-scoped pseudo-global blocker does not block
scope "form" and is omitted from its info, while the string-scoped global
blocker does block "form". -/
theorem uiblock_c10_witness :
    isBlocked c10arr (some (Scope.str "form")) = false
    ∧ getBlockingInfo c10arr "form" = []
    ∧ isBlocked c10str (some (Scope.str "form")) = true :=
  uiblock_c10_global_string_only "form" (by decide)

end ActionGuard
